import Mathlib

/-!
Verification development for the shift-weaver repository: a shallow
embedding, in Lean 4, of the roster-to-calendar synchronization engine
(src/shift.py, src/excel.py, src/term_roster_parser.py, src/ui.py,
src/main.py), together with theorems settling the specification claims
about uid generation, table location, shift-factory label handling,
reconciliation and the sync executor.

Machine integers are modelled as Nat with explicit reduction modulo 2^32
where the SHA-1 rounds require it; Python exceptions are modelled with
Except; Python None is modelled with Option.
-/

/-! ### Byte-level helpers (SHA-1 and UUID plumbing) -/

/-- Reduce a natural number to a 32-bit word, as Python `& 0xFFFFFFFF`. -/
def w32 (n : Nat) : Nat := n % 4294967296

/-- Rotate the low 32 bits of a word left by b positions. -/
def rotl32 (b n : Nat) : Nat := w32 (n * 2 ^ b + n / 2 ^ (32 - b))

/-- Big-endian byte expansion of a value into a fixed number of bytes. -/
def natToBytesBE : Nat → Nat → List Nat
  | 0, _ => []
  | k + 1, v => natToBytesBE k (v / 256) ++ [v % 256]

/-- Group a byte list into big-endian 32-bit words (groups of four bytes). -/
def bytesToWordsBE : List Nat → List Nat
  | b0 :: b1 :: b2 :: b3 :: rest =>
      (((b0 * 256 + b1) * 256 + b2) * 256 + b3) :: bytesToWordsBE rest
  | _ => []

/-! ### SHA-1 (RFC 3174), used by the UUID version-5 algorithm that
`uuid.uuid5` applies in Shift.__generate_uid (src/shift.py:97-113). -/

/-- Round function f(t; b, c, d) of SHA-1. -/
def sha1F (t b c d : Nat) : Nat :=
  if t < 20 then (b &&& c) ||| ((b ^^^ 4294967295) &&& d)
  else if t < 40 then b ^^^ c ^^^ d
  else if t < 60 then (b &&& c) ||| (b &&& d) ||| (c &&& d)
  else b ^^^ c ^^^ d

/-- Round constant K(t) of SHA-1. -/
def sha1K (t : Nat) : Nat :=
  if t < 20 then 1518500249
  else if t < 40 then 1859775393
  else if t < 60 then 2400959708
  else 3395469782

/-- Extend the 16 words of a block by n further schedule words. -/
def sha1Extend : Nat → List Nat → List Nat
  | 0, ws => ws
  | k + 1, ws =>
      let L := ws.length
      let x := (ws.getD (L - 3) 0) ^^^ (ws.getD (L - 8) 0) ^^^
               (ws.getD (L - 14) 0) ^^^ (ws.getD (L - 16) 0)
      sha1Extend k (ws ++ [rotl32 1 x])

/-- Run the 80 SHA-1 rounds over the schedule words. -/
def sha1Rounds : List Nat → Nat → Nat × Nat × Nat × Nat × Nat → Nat × Nat × Nat × Nat × Nat
  | [], _, st => st
  | w :: ws, t, (a, b, c, d, e) =>
      let temp := w32 (rotl32 5 a + sha1F t b c d + e + sha1K t + w)
      sha1Rounds ws (t + 1) (temp, a, rotl32 30 b, c, d)

/-- Compress one 16-word block into the running SHA-1 state. -/
def sha1Compress (h : Nat × Nat × Nat × Nat × Nat) (block : List Nat) :
    Nat × Nat × Nat × Nat × Nat :=
  let ws := sha1Extend 64 block
  match sha1Rounds ws 0 h with
  | (a, b, c, d, e) =>
      (w32 (h.1 + a), w32 (h.2.1 + b), w32 (h.2.2.1 + c),
       w32 (h.2.2.2.1 + d), w32 (h.2.2.2.2 + e))

/-- Pad a byte message per SHA-1: append 0x80, zeros, then the 64-bit
big-endian bit length, to a multiple of 64 bytes. -/
def sha1Pad (msg : List Nat) : List Nat :=
  let L := msg.length
  let zeros := (119 - L % 64) % 64
  msg ++ [128] ++ List.replicate zeros 0 ++ natToBytesBE 8 (8 * L)

/-- Split a word list into blocks of 16 words, with a fuel argument
bounding the number of blocks so that the recursion is structural. -/
def chunkWordsFuel : Nat → List Nat → List (List Nat)
  | 0, _ => []
  | _, [] => []
  | fuel + 1, w :: ws =>
      List.take 16 (w :: ws) :: chunkWordsFuel fuel (List.drop 15 ws)

/-- Split a word list into blocks of 16 words. -/
def chunkWords (ws : List Nat) : List (List Nat) := chunkWordsFuel ws.length ws

/-- SHA-1 digest of a byte message, as a list of 20 bytes. -/
def sha1 (msg : List Nat) : List Nat :=
  let blocks := chunkWords (bytesToWordsBE (sha1Pad msg))
  match blocks.foldl sha1Compress
      (1732584193, 4023233417, 2562383102, 271733878, 3285377520) with
  | (h0, h1, h2, h3, h4) =>
      natToBytesBE 4 h0 ++ natToBytesBE 4 h1 ++ natToBytesBE 4 h2 ++
      natToBytesBE 4 h3 ++ natToBytesBE 4 h4

/-! ### UUID version 5 (RFC 4122 section 4.3), as Python uuid.uuid5 -/

/-- UUID version-5 bytes: the first 16 bytes of SHA-1 over namespace
bytes followed by name bytes, with the version nibble of byte 6 forced
to 5 and the variant bits of byte 8 forced to 10. -/
def uuid5Bytes (ns name : List Nat) : List Nat :=
  let d := (sha1 (ns ++ name)).take 16
  d.take 6 ++ [d.getD 6 0 % 16 + 80] ++ [d.getD 7 0] ++
    [d.getD 8 0 % 64 + 128] ++ d.drop 9

/-- Lowercase hexadecimal digit for a value below 16. -/
def hexDigit (n : Nat) : Char :=
  if n < 10 then Char.ofNat (48 + n) else Char.ofNat (87 + n)

/-- Two lowercase hexadecimal digits of one byte. -/
def byteHex (b : Nat) : String :=
  String.mk [hexDigit (b / 16), hexDigit (b % 16)]

/-- Concatenated lowercase hexadecimal rendering of a byte list. -/
def bytesHex (bs : List Nat) : String := String.join (bs.map byteHex)

/-- Canonical hyphenated string of a 16-byte UUID, as Python str(uuid). -/
def uuidToString (bs : List Nat) : String :=
  bytesHex (bs.take 4) ++ "-" ++ bytesHex ((bs.drop 4).take 2) ++ "-" ++
    bytesHex ((bs.drop 6).take 2) ++ "-" ++ bytesHex ((bs.drop 8).take 2) ++
    "-" ++ bytesHex (bs.drop 10)

/-- UTF-8 bytes of an ASCII string (every string that reaches the uid
pipeline in shift.py is plain ASCII, where UTF-8 is the code point). -/
def strToBytes (s : String) : List Nat := s.data.map Char.toNat

/-! ### Dates, datetimes and the Australia/Sydney time zone

shift.py hardcodes ZoneInfo("Australia/Sydney").  The tzname function
below models the IANA tz database rule for Australia/Sydney in force
since 2008: daylight saving (AEDT) runs from the first Sunday of
October at 02:00 standard time to the first Sunday of April at 03:00
daylight time; wall times in the spring-forward gap carry the
pre-transition name under fold = 0, which is what Python zoneinfo
reports for a combined datetime. -/

/-- Calendar date as used by datetime.date. -/
structure PyDate where
  year : Nat
  month : Nat
  day : Nat
deriving DecidableEq, Repr

/-- Wall-clock datetime; aware is true when a tzinfo (always
Australia/Sydney in shift.py) is attached, false for a naive value. -/
structure PyDateTime where
  year : Nat
  month : Nat
  day : Nat
  hour : Nat
  minute : Nat
  second : Nat
  aware : Bool
deriving DecidableEq, Repr

/-- Day of the week of a Gregorian date by the Sakamoto formula, with 0
denoting Sunday. -/
def dayOfWeek (y m d : Nat) : Nat :=
  let t := [0, 3, 2, 5, 0, 3, 5, 1, 4, 6, 2, 4]
  let y2 := if m < 3 then y - 1 else y
  (y2 + y2 / 4 - y2 / 100 + y2 / 400 + t.getD (m - 1) 0 + d) % 7

/-- Day of month of the first Sunday of a month. -/
def firstSundayDay (y m : Nat) : Nat := 1 + (7 - dayOfWeek y m 1) % 7

/-- Whether an Australia/Sydney wall time falls in daylight saving. -/
def sydneyIsDST (dt : PyDateTime) : Bool :=
  if 11 ≤ dt.month ∨ dt.month ≤ 3 then true
  else if dt.month = 10 then
    let fs := firstSundayDay dt.year 10
    if fs < dt.day then true else if dt.day < fs then false else 3 ≤ dt.hour
  else if dt.month = 4 then
    let fs := firstSundayDay dt.year 4
    if dt.day < fs then true else if fs < dt.day then false else dt.hour < 3
  else false

/-- Python strftime %Z for the embedded datetimes: the Sydney zone name
for an aware value, the empty string for a naive one. -/
def strftimeZ (dt : PyDateTime) : String :=
  if dt.aware then (if sydneyIsDST dt then "AEDT" else "AEST") else ""

/-- Decimal rendering of a natural number zero-padded to two digits. -/
def pad2 (n : Nat) : String := if n < 10 then "0" ++ toString n else toString n

/-- Decimal rendering of a natural number zero-padded to four digits. -/
def pad4 (n : Nat) : String :=
  if n < 10 then "000" ++ toString n
  else if n < 100 then "00" ++ toString n
  else if n < 1000 then "0" ++ toString n
  else toString n

/-- Python strftime with balanced format %Y%m%d%H%M%S%Z, the format used
in Shift.__generate_uid (src/shift.py:110). -/
def strftimeYmdHMSZ (dt : PyDateTime) : String :=
  pad4 dt.year ++ pad2 dt.month ++ pad2 dt.day ++ pad2 dt.hour ++
    pad2 dt.minute ++ pad2 dt.second ++ strftimeZ dt

/-! ### Python str.strip and str.upper over the ASCII labels -/

/-- Characters Python str.strip removes by default. -/
def isPyWhitespace (c : Char) : Bool :=
  c = ' ' || c = '\t' || c = '\n' || c = '\x0d' || c = '\x0b' || c = '\x0c'

/-- Python str.strip: drop leading and trailing whitespace. -/
def pyStrip (s : String) : String :=
  String.mk (((s.data.dropWhile isPyWhitespace).reverse.dropWhile
    isPyWhitespace).reverse)

/-- Python str.upper on one ASCII character. -/
def pyUpperChar (c : Char) : Char :=
  if 'a' ≤ c && c ≤ 'z' then Char.ofNat (c.toNat - 32) else c

/-- Python str.upper over the ASCII roster labels. -/
def pyUpper (s : String) : String := String.mk (s.data.map pyUpperChar)

/-! ### Shift (src/shift.py)

Embedding of the Shift class: the module constants, the two label
tables, the DTSTART computation of Shift.__init__ and the uid pipeline
of Shift.__generate_uid.  A Shift value records exactly the attributes
the claims touch. -/

/-- Module constant _EMPLOYER_NAME of shift.py. -/
def employerName : String := "SWSLHD"

/-- Module constant _EMPLOYEE_ID of shift.py. -/
def employeeId : String := "60316064"

/-- Bytes of the module constant _APP_NAMESPACE of shift.py, the UUID
48f80ff6-3ddd-4b70-9ad0-24459b3219bc. -/
def appNamespaceBytes : List Nat :=
  [72, 248, 15, 246, 61, 221, 75, 112, 154, 208, 36, 69, 155, 50, 25, 188]

/-- Class table Shift.SHIFT_START_TIMES: label to (hour, minute) of the
shift start, time zone fixed to Australia/Sydney. -/
def shiftStartTimes : List (String × Nat × Nat) :=
  [("D", 8, 0), ("MF", 10, 0), ("F", 12, 30), ("E", 14, 0), ("N", 22, 30)]

/-- Class table Shift.LABEL_MEANING: label to human-readable summary. -/
def labelMeaning : List (String × String) :=
  [("D", "Day"), ("MF", "Morning Float"), ("F", "Float"), ("E", "Evening"),
   ("N", "Night"), ("SR", "Sick Relief"), ("T", "Teaching Day"),
   ("AL", "Annual Leave")]

/-- Association-list lookup, as Python dict indexing over the fixed
class tables above. -/
def alistLookup {α : Type} : List (String × α) → String → Option α
  | [], _ => none
  | (k, v) :: rest, key => if k = key then some v else alistLookup rest key

/-- DTSTART of a Shift as computed in Shift.__init__: for a label in
SHIFT_START_TIMES the date combined with the tabled aware start time,
otherwise the date combined with naive midnight (the all-day case). -/
def shiftStartDT (d : PyDate) (label : String) : PyDateTime :=
  match alistLookup shiftStartTimes label with
  | some (h, mi) =>
      { year := d.year, month := d.month, day := d.day,
        hour := h, minute := mi, second := 0, aware := true }
  | none =>
      { year := d.year, month := d.month, day := d.day,
        hour := 0, minute := 0, second := 0, aware := false }

/-- Shift.__generate_uid: the canonical string of the version-5 UUID of
EMPLOYER_NAME:EMPLOYEE_ID:strftime(start, %Y%m%d%H%M%S%Z) under the
fixed application namespace. -/
def generateUid (start : PyDateTime) : String :=
  uuidToString (uuid5Bytes appNamespaceBytes
    (strToBytes (employerName ++ ":" ++ employeeId ++ ":" ++
      strftimeYmdHMSZ start)))

/-- Value of one icalendar property as the Shift constructor stores it:
a date-time, a duration in hours, a text, a small integer, or a
category list. -/
inductive PropValue where
  | dt : PyDateTime → PropValue
  | durH : Nat → PropValue
  | txt : String → PropValue
  | num : Nat → PropValue
  | cats : List String → PropValue
deriving DecidableEq, Repr

/-- Property dictionary of an icalendar component, as name-value pairs
with distinct names. -/
abbrev ICalProps := List (String × PropValue)

/-- Value object holding the Shift attributes the claims mention,
together with the icalendar property dictionary that Shift.__init__
populates (DTSTART, DURATION, SUMMARY, UID, CATEGORIES, CLASS,
SEQUENCE, X-PUBLISHED-BY at src/shift.py:47-77). -/
structure Shift where
  date : PyDate
  startDT : PyDateTime
  durationHours : Nat
  summary : String
  uid : String
  component : ICalProps
deriving DecidableEq, Repr

/-- Shift.__init__ for a date and a raw label: the label is stripped and
upper-cased, DTSTART and DURATION are chosen by the start-time table,
SUMMARY by the label-meaning table with the normalized label as
fallback, uid by Shift.__generate_uid, and the component holds the
properties the constructor adds. -/
def mkShift (d : PyDate) (rawLabel : String) : Shift :=
  let label := pyUpper (pyStrip rawLabel)
  let start := shiftStartDT d label
  let dur := if (alistLookup shiftStartTimes label).isSome then 10 else 24
  let summ := (alistLookup labelMeaning label).getD label
  let u := generateUid start
  { date := d,
    startDT := start,
    durationHours := dur,
    summary := summ,
    uid := u,
    component :=
      [("DTSTART", PropValue.dt start),
       ("DURATION", PropValue.durH dur),
       ("SUMMARY", PropValue.txt summ),
       ("UID", PropValue.txt u),
       ("CATEGORIES", PropValue.cats ["Work", "Shift"]),
       ("CLASS", PropValue.txt "PRIVATE"),
       ("SEQUENCE", PropValue.num 0),
       ("X-PUBLISHED-BY", PropValue.txt "ShiftWeaver")] }

/-! ### Shift-factory skip decision (src/ui.py:270-279, src/main.py:142-149)

Both call sites guard Shift construction with
  shift_label and isinstance(shift_label, str)
  and (shift_label := shift_label.strip())
  and shift_label.upper() not in ("OFF").
The parenthesised ("OFF") is the plain string OFF, so the final
conjunct is a Python substring test of the upper-cased label against
OFF, not a tuple membership test. -/

/-- Whether the character list n occurs as a prefix of h, by equality of
code points. -/
def charsPrefix : List Char → List Char → Bool
  | [], _ => true
  | _ :: _, [] => false
  | a :: as, b :: bs => a = b && charsPrefix as bs

/-- Whether the character list n occurs contiguously inside h, the
semantics of the Python expression n in h for strings. -/
def charsSub (n : List Char) : List Char → Bool
  | [] => charsPrefix n []
  | b :: bs => charsPrefix n (b :: bs) || charsSub n bs

/-- Python substring membership n in h. -/
def pyInStr (n h : String) : Bool := charsSub n.data h.data

/-- The guard of the shift-construction loop in
MainWindow.update_calendar (src/ui.py:270-279): a Shift is materialized
for a string cell exactly when the stripped label is nonempty and its
upper-casing is not a substring of OFF. -/
def uiMakesShift (rawLabel : String) : Bool :=
  let stripped := pyStrip rawLabel
  !(stripped = "") && !(pyInStr (pyUpper stripped) "OFF")

/-! ### Reconciliation (src/ui.py:333-365)

Remote calendar entries are icalendar components fetched from the
server.  The deletion membership test at src/ui.py:341 is
shift.icalendar_component not in updated_shifts: the probe is a plain
icalendar Event, the list elements are Shifts, and because Shift is a
proper subclass of the probe type Python tries the reflected
Shift.__eq__ first, which returns NotImplemented for a non-Shift
(src/shift.py:122-123); the comparison then falls back to icalendar
Component equality, which compares the full property dictionaries (the
Shifts at hand carry no subcomponents).  The uid-only Shift.__eq__ is
never consulted on this comparison.  The creation loop at
src/ui.py:354-365 instead compares new_shift.uid against each old
component's UID property. -/

/-- Remote calendar event as reconciliation sees it: its icalendar
component's property dictionary. -/
structure RemoteEvent where
  component : ICalProps
deriving DecidableEq, Repr

/-- Equality of two icalendar property dictionaries, the semantics the
membership test at src/ui.py:341 falls back to: every property of one
is present in the other with the same value, and conversely. -/
def propsEq (a b : ICalProps) : Bool :=
  a.all (fun kv => alistLookup b kv.1 == some kv.2) &&
    b.all (fun kv => alistLookup a kv.1 == some kv.2)

/-- Whether a remote component's UID property is the given uid string,
the comparison new_shift.uid == old_shift.icalendar_component.get("UID")
at src/ui.py:357-358 (False when the UID property is missing). -/
def remoteUidMatches (o : RemoteEvent) (u : String) : Bool :=
  alistLookup o.component "UID" == some (PropValue.txt u)

/-- Deletion side of the plan (src/ui.py:333-347): when any old shifts
exist, every old shift whose component is not in the updated list -
membership by full-property icalendar equality, per the fallback above
- is collected as outdated (and deleted); with no old shifts the branch
is skipped and nothing is deleted. -/
def outdatedShifts (old : List RemoteEvent) (updated : List Shift) :
    List RemoteEvent :=
  if 0 < old.length then
    old.filter (fun o => !(updated.any (fun s => propsEq o.component s.component)))
  else []

/-- Creation side of the plan (src/ui.py:354-365): each updated shift is
checked against the UID property of every old shift; the for-else
appends it to new_shifts exactly when no old component carries the same
uid. -/
def newShifts (old : List RemoteEvent) (updated : List Shift) : List Shift :=
  updated.filter (fun s => !(old.any (fun o => remoteUidMatches o s.uid)))

/-! ### Sync executor creation phase (src/ui.py:376-398, 411-418)

MainWindow.__save_calendar_event returns True on success and False when
calendar.save_event raises ConsistencyError or PutError; any other
exception propagates.  The creation phase builds
ThreadPool(len(new_shifts)) - multiprocessing raises ValueError when
the number of processes is zero - maps the saver over the shifts, and
counts True and False results. -/

/-- Python exceptions that can escape the creation phase. -/
inductive PyError where
  | valueError : PyError
  | uncaughtException : PyError
deriving DecidableEq, Repr

/-- Outcome of one calendar.save_event call, an external collaborator:
success, one of the two caught exception classes, or any other
exception. -/
inductive SaveOutcome where
  | ok : SaveOutcome
  | consistencyError : SaveOutcome
  | putError : SaveOutcome
  | otherError : SaveOutcome
deriving DecidableEq, Repr

/-- MainWindow.__save_calendar_event (src/ui.py:411-418): True on
success, False when save_event raises ConsistencyError or PutError,
and any other exception propagates. -/
def saveCalendarEvent : SaveOutcome → Except PyError Bool
  | .ok => .ok true
  | .consistencyError => .ok false
  | .putError => .ok false
  | .otherError => .error .uncaughtException

/-- Result collection of pool.starmap: the per-item results in order,
with any uncaught worker exception re-raised. -/
def starmapSave : List SaveOutcome → Except PyError (List Bool)
  | [] => .ok []
  | o :: rest =>
      match saveCalendarEvent o with
      | .error e => .error e
      | .ok b =>
          match starmapSave rest with
          | .error e => .error e
          | .ok bs => .ok (b :: bs)

/-- Creation phase of MainWindow.update_calendar (src/ui.py:376-398),
one SaveOutcome per entry of new_shifts: ThreadPool(len(new_shifts))
raises ValueError when new_shifts is empty, otherwise the saver is
starmapped and the True and False results are counted into
(success_count, fail_count). -/
def runCreatePhase (outcomes : List SaveOutcome) : Except PyError (Nat × Nat) :=
  if outcomes.length = 0 then .error .valueError
  else
    match starmapSave outcomes with
    | .error e => .error e
    | .ok results => .ok (results.count true, results.count false)

/-! ### Grid locators (src/excel.py:13-56, src/term_roster_parser.py:15-58
and 162-205)

A grid cell is recorded by the two attributes the locators test:
whether openpyxl reports it as date-typed (cell.is_date), and whether
its value is a string matched at its start by the personal-name regex
of the name-column locators.  A grid is the row-major list of rows;
iter_cols is iteration over the transpose. -/

/-- Cell of the roster grid, reduced to the two tested attributes. -/
structure GridCell where
  isDate : Bool
  nameMatch : Bool
deriving DecidableEq, Repr

/-- Rows are cell lists; grids are row lists (row-major). -/
abbrev Grid := List (List GridCell)

/-- Number of date-typed cells in a row, the value of
sum(cell.is_date for cell in row) at src/term_roster_parser.py:179. -/
def rowDateCount (row : List GridCell) : Nat :=
  (row.filter (fun c => c.isDate)).length

/-- Number of name-matching cells in a column. -/
def colNameCount (col : List GridCell) : Nat :=
  (col.filter (fun c => c.nameMatch)).length

/-- Inner cell loop of the module-level find_date_row (src/excel.py:25-33
and src/term_roster_parser.py:27-35): walk the row holding date_count,
and report whether the count ever reaches 7 (the non-date branch leaves
the count unchanged - there is no reset). -/
def excelRowHitsSeven : List GridCell → Nat → Bool
  | [], _ => false
  | c :: rest, cnt =>
      if c.isDate then
        let cnt2 := cnt + 1
        if cnt2 = 7 then true else excelRowHitsSeven rest cnt2
      else excelRowHitsSeven rest cnt

/-- Row loop of the module-level find_date_row: the break at
src/excel.py:33 leaves only the inner cell loop, so the scan continues
with the next row and date_row is overwritten by any later qualifying
row; rows are numbered from 1 and cell.row equals the row number. -/
def findDateRowExcelAux : List (List GridCell) → Nat → Nat → Nat
  | [], _, acc => acc
  | r :: rs, idx, acc =>
      let acc2 := if excelRowHitsSeven r 0 && !(idx = 0) then idx else acc
      findDateRowExcelAux rs (idx + 1) acc2

/-- Module-level find_date_row (src/excel.py:13-34, identical at
src/term_roster_parser.py:15-36): 0 when no row qualifies. -/
def findDateRowExcel (g : Grid) : Nat := findDateRowExcelAux g 1 0

/-- Inner cell loop of the name-column locators: walk the column holding
match_count and report whether the count ever reaches 6. -/
def colHitsSix : List GridCell → Nat → Bool
  | [], _ => false
  | c :: rest, cnt =>
      let cnt2 := if c.nameMatch then cnt + 1 else cnt
      if cnt2 = 6 then true else colHitsSix rest cnt2

/-- Column loop of the module-level find_name_column (src/excel.py:38-56,
identical shape at src/term_roster_parser.py:39-58): the break leaves
only the inner cell loop, so a later qualifying column overwrites the
stored column; columns are numbered from 1, 0 models the empty or None
initial value kept when no column qualifies. -/
def findNameColumnExcelAux : List (List GridCell) → Nat → Nat → Nat
  | [], _, acc => acc
  | c :: cs, idx, acc =>
      let acc2 := if colHitsSix c 0 then idx else acc
      findNameColumnExcelAux cs (idx + 1) acc2

/-- Module-level find_name_column applied to the columns of a grid. -/
def findNameColumnExcel (g : Grid) : Nat :=
  findNameColumnExcelAux g.transpose 1 0

/-- TermRosterParser.find_date_row (src/term_roster_parser.py:162-182):
return the first 1-based row number whose total date count reaches 7,
else 0. -/
def findDateRowTRPAux : List (List GridCell) → Nat → Nat
  | [], _ => 0
  | r :: rs, idx =>
      if 7 ≤ rowDateCount r then idx else findDateRowTRPAux rs (idx + 1)

/-- TermRosterParser.find_date_row over a grid. -/
def findDateRowTRP (g : Grid) : Nat := findDateRowTRPAux g 1

/-- TermRosterParser.find_name_column (src/term_roster_parser.py:184-205)
as the Python value it returns, with Option Nat standing for the
dynamic int-or-None type the constructor tests against: return
cell.column (the 1-based column number) as soon as match_count reaches
6 in a column, else return 0 after the loop. -/
def findNameColumnTRPAuxOpt : List (List GridCell) → Nat → Option Nat
  | [], _ => some 0
  | c :: cs, idx =>
      if colHitsSix c 0 then some idx else findNameColumnTRPAuxOpt cs (idx + 1)

/-- TermRosterParser.find_name_column over a grid. -/
def findNameColumnTRPOpt (g : Grid) : Option Nat :=
  findNameColumnTRPAuxOpt g.transpose 1

/-- Integer value of TermRosterParser.find_name_column. -/
def findNameColumnTRP (g : Grid) : Nat := (findNameColumnTRPOpt g).getD 0

/-- Guard at src/term_roster_parser.py:132-133: the constructor raises
the could-not-find-names error exactly when find_name_column returned
None. -/
def initRaisesNameColumnError (g : Grid) : Bool :=
  (findNameColumnTRPOpt g).isNone

/-! ### Helper lemmas -/

/-- Concatenation of strings is associative. -/
theorem stringAppend_assoc (a b c : String) : a ++ b ++ c = a ++ (b ++ c) := by
  apply String.ext
  simp [String.data_append]

/-- A boolean list has as many entries as it has true and false counts. -/
theorem countTrue_add_countFalse (l : List Bool) :
    l.count true + l.count false = l.length := by
  induction l with
  | nil => rfl
  | cons b t ih => cases b <;> simp [List.count_cons] <;> omega

/-- When no worker raises an uncaught exception, starmap returns one
boolean per task. -/
theorem starmapSave_ok : ∀ l : List SaveOutcome,
    (∀ o ∈ l, o ≠ SaveOutcome.otherError) →
    ∃ bs : List Bool, starmapSave l = Except.ok bs ∧ bs.length = l.length := by
  intro l
  induction l with
  | nil => exact fun _ => ⟨[], rfl, rfl⟩
  | cons o t ih =>
    intro h
    obtain ⟨bs, hbs, hlen⟩ := ih (fun x hx => h x (List.mem_cons_of_mem _ hx))
    have ho := h o (List.mem_cons_self _ _)
    cases o with
    | ok =>
        exact ⟨true :: bs, by simp [starmapSave, saveCalendarEvent, hbs],
          by simp [hlen]⟩
    | consistencyError =>
        exact ⟨false :: bs, by simp [starmapSave, saveCalendarEvent, hbs],
          by simp [hlen]⟩
    | putError =>
        exact ⟨false :: bs, by simp [starmapSave, saveCalendarEvent, hbs],
          by simp [hlen]⟩
    | otherError => exact absurd rfl ho

/-- The name-column method always returns an integer, via one of its two
return statements, never None. -/
theorem findNameColumnTRPAuxOpt_isSome :
    ∀ (cols : List (List GridCell)) (idx : Nat),
    (findNameColumnTRPAuxOpt cols idx).isSome = true := by
  intro cols
  induction cols with
  | nil => intro idx; rfl
  | cons c cs ih =>
    intro idx
    unfold findNameColumnTRPAuxOpt
    split
    · rfl
    · exact ih (idx + 1)

/-- C4 evaluation: the guard skips the known shift code F (and any other
label whose upper-casing is a substring of OFF) while also skipping the
genuinely empty and OFF labels. -/
theorem c4_f_label_skipped_eval :
    uiMakesShift " f " = false ∧ uiMakesShift "F" = false ∧
    alistLookup shiftStartTimes "F" = some (12, 30) ∧
    alistLookup labelMeaning "F" = some "Float" ∧
    uiMakesShift " off " = false ∧ uiMakesShift "" = false ∧
    uiMakesShift "O" = false ∧ uiMakesShift "OF" = false ∧
    uiMakesShift "N" = true ∧ uiMakesShift "AL" = true := by decide

/-- C5 counterexample: with an empty local shift set and one remote
shift, the deletion list is not empty, against the claimed no-op. -/
theorem c5_counterexample :
    outdatedShifts [{ component := [("UID", PropValue.txt "1")] }] [] ≠ [] := by
  decide

/-- C5 amended: with an empty local shift set every remote entry is
collected for deletion and nothing is collected for creation. -/
theorem c5_empty_local_deletes_all_remote (old : List RemoteEvent) :
    outdatedShifts old [] = old ∧ newShifts old [] = [] := by
  constructor
  · cases old with
    | nil => rfl
    | cons o t => simp [outdatedShifts]
  · rfl

/-- C6 counterexample: a single creation whose save raises an exception
outside the two caught classes makes the executor propagate the
exception instead of returning a summary. -/
theorem c6_counterexample :
    runCreatePhase [SaveOutcome.otherError] =
      Except.error PyError.uncaughtException := rfl

/-- C6 amended: for a nonempty creation list in which every outcome is a
success or one of the two caught failure classes, the executor returns
a summary whose success count plus failure count equals the number of
creations. -/
theorem c6_partial_failure_accounting (outcomes : List SaveOutcome)
    (hne : outcomes ≠ [])
    (hok : ∀ o ∈ outcomes, o ≠ SaveOutcome.otherError) :
    ∃ s f, runCreatePhase outcomes = Except.ok (s, f) ∧
      s + f = outcomes.length := by
  obtain ⟨bs, hbs, hlen⟩ := starmapSave_ok outcomes hok
  refine ⟨bs.count true, bs.count false, ?_, ?_⟩
  · unfold runCreatePhase
    rw [if_neg (by simpa using hne), hbs]
  · rw [← hlen]
    exact countTrue_add_countFalse bs

/-- C6 witness at five creations with two caught failures. -/
theorem c6_witness :
    ([SaveOutcome.ok, SaveOutcome.consistencyError, SaveOutcome.ok,
      SaveOutcome.putError, SaveOutcome.ok] ≠ ([] : List SaveOutcome)) ∧
    ∃ s f, runCreatePhase [SaveOutcome.ok, SaveOutcome.consistencyError,
      SaveOutcome.ok, SaveOutcome.putError, SaveOutcome.ok] =
        Except.ok (s, f) ∧ s + f = 5 :=
  ⟨by decide, c6_partial_failure_accounting _ (by decide) (by decide)⟩

/-- C9: on an empty creation list the creation phase constructs
ThreadPool(0), which raises ValueError, so no summary is produced. -/
theorem c9_empty_create_pool_raises :
    runCreatePhase ([] : List SaveOutcome) =
      Except.error PyError.valueError := rfl

/-- C10: find_name_column always returns an integer (0 on failure),
never None, so the constructor branch raising the could-not-find-names
error is unreachable. -/
theorem c10_none_check_unreachable (g : Grid) :
    initRaisesNameColumnError g = false ∧
    (findNameColumnTRPOpt g).isSome = true := by
  have h := findNameColumnTRPAuxOpt_isSome g.transpose 1
  refine ⟨?_, h⟩
  obtain ⟨v, hv⟩ := Option.isSome_iff_exists.mp h
  simp [initRaisesNameColumnError, findNameColumnTRPOpt] at hv ⊢
  simp [hv]

/-- Date count of a row grows by one at a date-typed head cell. -/
theorem rowDateCount_cons_date (c : GridCell) (rest : List GridCell)
    (hc : c.isDate = true) :
    rowDateCount (c :: rest) = rowDateCount rest + 1 := by
  simp [rowDateCount, List.filter_cons, hc]

/-- Date count of a row is unchanged at a non-date head cell. -/
theorem rowDateCount_cons_nondate (c : GridCell) (rest : List GridCell)
    (hc : c.isDate = false) :
    rowDateCount (c :: rest) = rowDateCount rest := by
  simp [rowDateCount, List.filter_cons, hc]

/-- Name-match count of a column grows by one at a matching head cell. -/
theorem colNameCount_cons_match (c : GridCell) (rest : List GridCell)
    (hc : c.nameMatch = true) :
    colNameCount (c :: rest) = colNameCount rest + 1 := by
  simp [colNameCount, List.filter_cons, hc]

/-- Name-match count of a column is unchanged at a non-matching head cell. -/
theorem colNameCount_cons_nonmatch (c : GridCell) (rest : List GridCell)
    (hc : c.nameMatch = false) :
    colNameCount (c :: rest) = colNameCount rest := by
  simp [colNameCount, List.filter_cons, hc]

/-- The running date counter of the module-level row scan reaches 7
exactly when the counter plus the total number of date cells left in
the row reaches 7: the counter is never reset by a non-date cell. -/
theorem excelRowHitsSeven_iff : ∀ (row : List GridCell) (cnt : Nat),
    cnt < 7 → (excelRowHitsSeven row cnt = true ↔ 7 ≤ cnt + rowDateCount row) := by
  intro row
  induction row with
  | nil =>
    intro cnt h
    simp [excelRowHitsSeven, rowDateCount]
    omega
  | cons c rest ih =>
    intro cnt h
    unfold excelRowHitsSeven
    by_cases hc : c.isDate
    · rw [if_pos hc, rowDateCount_cons_date c rest hc]
      by_cases h7 : cnt + 1 = 7
      · rw [if_pos h7]
        simp
        omega
      · rw [if_neg h7, ih (cnt + 1) (by omega)]
        omega
    · rw [if_neg hc, rowDateCount_cons_nondate c rest (by simpa using hc),
        ih cnt h]

/-- The running match counter of the column scan reaches 6 exactly when
the counter plus the total number of matching cells left reaches 6. -/
theorem colHitsSix_iff : ∀ (col : List GridCell) (cnt : Nat),
    cnt < 6 → (colHitsSix col cnt = true ↔ 6 ≤ cnt + colNameCount col) := by
  intro col
  induction col with
  | nil =>
    intro cnt h
    simp [colHitsSix, colNameCount]
    omega
  | cons c rest ih =>
    intro cnt h
    unfold colHitsSix
    cases hc : c.nameMatch with
    | true =>
      rw [colNameCount_cons_match c rest hc]
      simp only [hc, if_true]
      by_cases h6 : cnt + 1 = 6
      · rw [if_pos h6]
        simp
        omega
      · rw [if_neg h6, ih (cnt + 1) (by omega)]
        omega
    | false =>
      rw [colNameCount_cons_nonmatch c rest hc]
      simp only [hc, Bool.false_eq_true, if_false]
      rw [if_neg (by omega : ¬ cnt = 6), ih cnt h]

/-- The parser method scan reports 0 exactly when no row reaches a total
of 7 date cells. -/
theorem findDateRowTRPAux_zero_iff : ∀ (rows : List (List GridCell)) (idx : Nat),
    1 ≤ idx →
    (findDateRowTRPAux rows idx = 0 ↔ ∀ r ∈ rows, rowDateCount r < 7) := by
  intro rows
  induction rows with
  | nil => intro idx _; simp [findDateRowTRPAux]
  | cons r rs ih =>
    intro idx hidx
    unfold findDateRowTRPAux
    by_cases h7 : 7 ≤ rowDateCount r
    · rw [if_pos h7]
      constructor
      · intro h0; omega
      · intro hall
        have := hall r (List.mem_cons_self _ _)
        omega
    · rw [if_neg h7, ih (idx + 1) (by omega)]
      constructor
      · intro hall x hx
        rcases List.mem_cons.mp hx with rfl | hx2
        · omega
        · exact hall x hx2
      · intro hall x hx
        exact hall x (List.mem_cons_of_mem _ hx)

/-- A nonzero result of the parser method scan is at least the starting
row number. -/
theorem findDateRowTRPAux_pos : ∀ (rows : List (List GridCell)) (idx : Nat),
    findDateRowTRPAux rows idx ≠ 0 → idx ≤ findDateRowTRPAux rows idx := by
  intro rows
  induction rows with
  | nil => intro idx h; exact absurd rfl h
  | cons r rs ih =>
    intro idx h
    unfold findDateRowTRPAux at h ⊢
    by_cases h7 : 7 ≤ rowDateCount r
    · rw [if_pos h7] at h ⊢
    · rw [if_neg h7] at h ⊢
      have := ih (idx + 1) h
      omega

/-- With no qualifying row the module-level scan keeps its accumulator. -/
theorem findDateRowExcelAux_none : ∀ (rows : List (List GridCell)) (idx acc : Nat),
    (∀ r ∈ rows, excelRowHitsSeven r 0 = false) →
    findDateRowExcelAux rows idx acc = acc := by
  intro rows
  induction rows with
  | nil => intro idx acc _; rfl
  | cons r rs ih =>
    intro idx acc hall
    unfold findDateRowExcelAux
    rw [hall r (List.mem_cons_self _ _)]
    simp only [Bool.false_and, if_false]
    exact ih (idx + 1) acc (fun x hx => hall x (List.mem_cons_of_mem _ hx))

/-- A positive accumulator stays positive through the module-level scan
(overwrites only ever store the current positive row number). -/
theorem findDateRowExcelAux_pos_acc : ∀ (rows : List (List GridCell)) (idx acc : Nat),
    1 ≤ idx → 1 ≤ acc → 1 ≤ findDateRowExcelAux rows idx acc := by
  intro rows
  induction rows with
  | nil => intro idx acc _ hacc; exact hacc
  | cons r rs ih =>
    intro idx acc hidx hacc
    unfold findDateRowExcelAux
    refine ih (idx + 1) _ (by omega) ?_
    split
    · omega
    · exact hacc

/-- If some row qualifies, the module-level scan ends positive. -/
theorem findDateRowExcelAux_pos_mem : ∀ (rows : List (List GridCell)) (idx acc : Nat),
    1 ≤ idx → (∃ r ∈ rows, excelRowHitsSeven r 0 = true) →
    1 ≤ findDateRowExcelAux rows idx acc := by
  intro rows
  induction rows with
  | nil =>
    intro idx acc _ hex
    obtain ⟨r, hr, _⟩ := hex
    exact absurd hr (List.not_mem_nil r)
  | cons r rs ih =>
    intro idx acc hidx hex
    obtain ⟨x, hx, hhit⟩ := hex
    unfold findDateRowExcelAux
    rcases List.mem_cons.mp hx with rfl | hx2
    · have h0 : decide (idx = 0) = false := by
        simp only [decide_eq_false_iff_not]
        omega
      rw [hhit, h0]
      simp only [Bool.not_false, Bool.and_true, if_true]
      exact findDateRowExcelAux_pos_acc rs (idx + 1) idx (by omega) (by omega)
    · exact ih (idx + 1) _ (by omega) ⟨x, hx2, hhit⟩

/-- The parser name-column scan returns some 0 exactly when no column
reaches 6 matching cells. -/
theorem findNameColumnTRPAuxOpt_zero_iff :
    ∀ (cols : List (List GridCell)) (idx : Nat), 1 ≤ idx →
    (findNameColumnTRPAuxOpt cols idx = some 0 ↔
      ∀ c ∈ cols, colNameCount c < 6) := by
  intro cols
  induction cols with
  | nil => intro idx _; simp [findNameColumnTRPAuxOpt]
  | cons c cs ih =>
    intro idx hidx
    unfold findNameColumnTRPAuxOpt
    by_cases hc : colHitsSix c 0 = true
    · rw [if_pos hc]
      have h6 : 6 ≤ colNameCount c := by
        have := (colHitsSix_iff c 0 (by omega)).mp hc
        omega
      constructor
      · intro hsome
        have : idx = 0 := Option.some_inj.mp hsome
        omega
      · intro hall
        have := hall c (List.mem_cons_self _ _)
        omega
    · rw [if_neg hc, ih (idx + 1) (by omega)]
      have hlt : colNameCount c < 6 := by
        by_contra hge
        exact hc ((colHitsSix_iff c 0 (by omega)).mpr (by omega))
      constructor
      · intro hall x hx
        rcases List.mem_cons.mp hx with rfl | hx2
        · exact hlt
        · exact hall x hx2
      · intro hall x hx
        exact hall x (List.mem_cons_of_mem _ hx)

/-- A resolved (nonzero) parser name column is at least the starting
column number. -/
theorem findNameColumnTRPAuxOpt_pos :
    ∀ (cols : List (List GridCell)) (idx v : Nat),
    findNameColumnTRPAuxOpt cols idx = some v → v = 0 ∨ idx ≤ v := by
  intro cols
  induction cols with
  | nil =>
    intro idx v hv
    exact Or.inl (Option.some_inj.mp hv).symm
  | cons c cs ih =>
    intro idx v hv
    unfold findNameColumnTRPAuxOpt at hv
    by_cases hc : colHitsSix c 0 = true
    · rw [if_pos hc] at hv
      have := Option.some_inj.mp hv
      omega
    · rw [if_neg hc] at hv
      rcases ih (idx + 1) v hv with h0 | hge
      · exact Or.inl h0
      · exact Or.inr (by omega)

/-- Date-typed roster cell. -/
def cellDate : GridCell := { isDate := true, nameMatch := false }

/-- Blank (neither date-typed nor name-matching) roster cell. -/
def cellBlank : GridCell := { isDate := false, nameMatch := false }

/-- Name-matching roster cell. -/
def cellName : GridCell := { isDate := false, nameMatch := true }

/-- Length of the longest contiguous run of date-typed cells in a row:
the notion of contiguity that the specification claims the date-row
heuristic requires. -/
def maxDateRunAux : List GridCell → Nat → Nat → Nat
  | [], cur, best => max cur best
  | c :: rest, cur, best =>
      if c.isDate then maxDateRunAux rest (cur + 1) best
      else maxDateRunAux rest 0 (max cur best)

/-- Longest contiguous run of date-typed cells in a row. -/
def maxDateRun (row : List GridCell) : Nat := maxDateRunAux row 0 0

/-- Row with seven date cells interrupted by a non-date cell: its total
date count is 7 but its longest contiguous run is 4. -/
def interruptedRow : List GridCell :=
  [cellDate, cellDate, cellDate, cellDate, cellBlank,
   cellDate, cellDate, cellDate]

/-- C3: both date-row locators select on the total number of date-typed
cells in a row reaching 7; contiguity plays no part in either scan. -/
theorem c3_threshold_is_total_not_contiguous (g : Grid) :
    ((findDateRowTRP g ≠ 0) ↔ ∃ r ∈ g, 7 ≤ rowDateCount r) ∧
    ((findDateRowExcel g ≠ 0) ↔ ∃ r ∈ g, 7 ≤ rowDateCount r) := by
  constructor
  · unfold findDateRowTRP
    rw [ne_eq, findDateRowTRPAux_zero_iff g 1 le_rfl]
    push_neg
    rfl
  · constructor
    · intro h
      by_contra hno
      push_neg at hno
      have hall : ∀ r ∈ g, excelRowHitsSeven r 0 = false := by
        intro r hr
        cases hh : excelRowHitsSeven r 0 with
        | false => rfl
        | true =>
          have := (excelRowHitsSeven_iff r 0 (by omega)).mp hh
          have := hno r hr
          omega
      exact h (findDateRowExcelAux_none g 1 0 hall)
    · intro hex
      obtain ⟨r, hr, h7⟩ := hex
      have hhit : excelRowHitsSeven r 0 = true :=
        (excelRowHitsSeven_iff r 0 (by omega)).mpr (by omega)
      have := findDateRowExcelAux_pos_mem g 1 0 le_rfl ⟨r, hr, hhit⟩
      unfold findDateRowExcel
      omega

/-- C3 counterexample: a row whose seven date cells are interrupted by a
non-date cell (longest contiguous run 4) is selected by both locators,
against the claimed contiguity requirement. -/
theorem c3_counterexample :
    findDateRowTRP [interruptedRow] = 1 ∧
    findDateRowExcel [interruptedRow] = 1 ∧
    rowDateCount interruptedRow = 7 ∧
    maxDateRun interruptedRow = 4 := by decide

/-- Grid whose rows 1 and 3 both reach seven date cells. -/
def twoHitRowsGrid : Grid :=
  [List.replicate 7 cellDate, [cellBlank], List.replicate 8 cellDate]

/-- Six-row grid whose two columns both reach six name matches. -/
def twoHitColsGrid : Grid := List.replicate 6 [cellName, cellName]

/-- C7 evaluation at the failing inputs: although the first row (and
first column) qualifies, the module-level excel locators return the
last qualifying row and column - the break only leaves the inner cell
loop - while the TermRosterParser methods return the first. -/
theorem c7_excel_locators_return_last :
    findDateRowExcel twoHitRowsGrid = 3 ∧
    7 ≤ rowDateCount (List.replicate 7 cellDate) ∧
    findDateRowTRP twoHitRowsGrid = 1 ∧
    findNameColumnExcel twoHitColsGrid = 2 ∧
    6 ≤ colNameCount (List.replicate 6 cellName) ∧
    findNameColumnTRP twoHitColsGrid = 1 := by decide

/-- C8 amended: both parser locators report failure with the sentinel 0
- failure being exactly the absence of any qualifying row or column -
and any successfully resolved row or column number is at least 1, hence
distinct from the sentinel. -/
theorem c8_failure_sentinel_is_zero (g : Grid) :
    (findDateRowTRP g = 0 ↔ ∀ r ∈ g, rowDateCount r < 7) ∧
    (findNameColumnTRP g = 0 ↔ ∀ c ∈ g.transpose, colNameCount c < 6) ∧
    (findDateRowTRP g ≠ 0 → 1 ≤ findDateRowTRP g) ∧
    (findNameColumnTRP g ≠ 0 → 1 ≤ findNameColumnTRP g) := by
  obtain ⟨v, hv⟩ := Option.isSome_iff_exists.mp
    (findNameColumnTRPAuxOpt_isSome g.transpose 1)
  have hval : findNameColumnTRP g = v := by
    show (findNameColumnTRPOpt g).getD 0 = v
    show (findNameColumnTRPAuxOpt g.transpose 1).getD 0 = v
    rw [hv]
    rfl
  refine ⟨?_, ?_, ?_, ?_⟩
  · exact findDateRowTRPAux_zero_iff g 1 le_rfl
  · rw [hval, ← findNameColumnTRPAuxOpt_zero_iff g.transpose 1 le_rfl, hv]
    exact ⟨fun h => by rw [h], fun h => Option.some_inj.mp h⟩
  · intro h
    omega
  · intro h
    rw [hval] at h ⊢
    omega

/-- C8 witness: a grid with no dates and no names fails with 0 on both
locators, and a grid whose first row holds seven dates resolves to a
row number at least 1. -/
theorem c8_witness :
    findDateRowTRP [[cellBlank]] = 0 ∧
    findNameColumnTRP [[cellBlank]] = 0 ∧
    1 ≤ findDateRowTRP [List.replicate 7 cellDate] := by
  refine ⟨(c8_failure_sentinel_is_zero [[cellBlank]]).1.mpr (by decide),
    (c8_failure_sentinel_is_zero [[cellBlank]]).2.1.mpr (by decide),
    (c8_failure_sentinel_is_zero [List.replicate 7 cellDate]).2.2.1
      (by decide)⟩

/-- C8 counterexample: a grid with no date row makes find_date_row
report 0, not the claimed sentinel 1, and a successful resolution can
itself be 1, so 1 cannot be the distinct failure sentinel. -/
theorem c8_counterexample :
    findDateRowTRP [[cellBlank]] = 0 ∧
    findDateRowTRP [[cellBlank]] ≠ 1 ∧
    findDateRowTRP [List.replicate 7 cellDate] = 1 := by decide

/-- C2 amended: the creation list holds exactly the local shifts whose
uid matches no remote component's UID property, and a remote entry
whose full property dictionary equals some local shift's is never
deleted; but the deletion list is computed by full-property icalendar
equality, not by uid, so it holds exactly the remote entries
component-equal to no local shift - a same-uid pair differing in any
other property is deleted (and, its uid matching, not recreated). -/
theorem c2_reconciliation_characterization (old : List RemoteEvent)
    (updated : List Shift) :
    (∀ o : RemoteEvent, o ∈ outdatedShifts old updated ↔
      o ∈ old ∧ ∀ s ∈ updated, propsEq o.component s.component = false) ∧
    (∀ s : Shift, s ∈ newShifts old updated ↔
      s ∈ updated ∧ ∀ o ∈ old, remoteUidMatches o s.uid = false) ∧
    (∀ o ∈ old, ∀ s ∈ updated, propsEq o.component s.component = true →
      o ∉ outdatedShifts old updated) ∧
    (∀ o ∈ old, ∀ s ∈ updated, remoteUidMatches o s.uid = true →
      s ∉ newShifts old updated) := by
  have h1 : ∀ o : RemoteEvent, o ∈ outdatedShifts old updated ↔
      o ∈ old ∧ ∀ s ∈ updated, propsEq o.component s.component = false := by
    intro o
    unfold outdatedShifts
    by_cases hlen : 0 < old.length
    · rw [if_pos hlen]
      simp [List.mem_filter, List.any_eq_true]
    · rw [if_neg hlen]
      have hnil : old = [] := List.length_eq_zero.mp (by omega)
      subst hnil
      simp
  have h2 : ∀ s : Shift, s ∈ newShifts old updated ↔
      s ∈ updated ∧ ∀ o ∈ old, remoteUidMatches o s.uid = false := by
    intro s
    unfold newShifts
    simp [List.mem_filter, List.any_eq_true]
  refine ⟨h1, h2, ?_, ?_⟩
  · intro o ho s hs heq hmem
    have := ((h1 o).mp hmem).2 s hs
    rw [heq] at this
    exact Bool.true_eq_false.mp this
  · intro o ho s hs heq hmem
    have := ((h2 s).mp hmem).2 o ho
    rw [heq] at this
    exact Bool.true_eq_false.mp this

/-- Remote entry A of the specification example, UID property 1. -/
def exRemoteA : RemoteEvent :=
  { component := [("UID", PropValue.txt "1"), ("SUMMARY", PropValue.txt "Day")] }

/-- Remote entry B of the specification example, UID property 2. -/
def exRemoteB : RemoteEvent :=
  { component := [("UID", PropValue.txt "2"), ("SUMMARY", PropValue.txt "Day")] }

/-- Local shift with uid 2, component-equal to remote entry B. -/
def exShiftB : Shift :=
  { date := { year := 2025, month := 1, day := 1 },
    startDT := { year := 2025, month := 1, day := 1, hour := 8, minute := 0,
                 second := 0, aware := true },
    durationHours := 10, summary := "Day", uid := "2",
    component := [("UID", PropValue.txt "2"), ("SUMMARY", PropValue.txt "Day")] }

/-- Local shift with uid 3, absent remotely. -/
def exShiftC : Shift :=
  { date := { year := 2025, month := 1, day := 2 },
    startDT := { year := 2025, month := 1, day := 2, hour := 8, minute := 0,
                 second := 0, aware := true },
    durationHours := 10, summary := "Day", uid := "3",
    component := [("UID", PropValue.txt "3"), ("SUMMARY", PropValue.txt "Day")] }

/-- C2 witness on the specification example, with remote B fetched back
exactly as local shift B stores it: A is deleted, C is created, and B -
component-equal and uid-equal on both sides - is left untouched. -/
theorem c2_witness :
    exRemoteA ∈ outdatedShifts [exRemoteA, exRemoteB] [exShiftB, exShiftC] ∧
    exRemoteB ∉ outdatedShifts [exRemoteA, exRemoteB] [exShiftB, exShiftC] ∧
    exShiftC ∈ newShifts [exRemoteA, exRemoteB] [exShiftB, exShiftC] ∧
    exShiftB ∉ newShifts [exRemoteA, exRemoteB] [exShiftB, exShiftC] := by
  have h := c2_reconciliation_characterization [exRemoteA, exRemoteB]
    [exShiftB, exShiftC]
  exact ⟨(h.1 exRemoteA).mpr ⟨by decide, by decide⟩,
    h.2.2.1 exRemoteB (by decide) exShiftB (by decide) (by decide),
    (h.2.1 exShiftC).mpr ⟨by decide, by decide⟩,
    h.2.2.2 exRemoteB (by decide) exShiftB (by decide) (by decide)⟩

/-- Remote event holding exactly the component of the Teaching Day shift
of 2025-07-01, as a server round trip that preserved every property. -/
def exRemoteT : RemoteEvent :=
  { component := (mkShift { year := 2025, month := 7, day := 1 } "T").component }

/-- Annual Leave shift of 2025-07-01 derived from the roster. -/
def exLocalAL : Shift := mkShift { year := 2025, month := 7, day := 1 } "AL"

set_option maxRecDepth 1000000 in
/-- C2 counterexample: the all-day labels T and AL on 2025-07-01 yield
the same uid (both hash the naive midnight start), yet the remote
Teaching Day entry differs from the local Annual Leave shift in its
SUMMARY property, so full-property membership deletes it although its
uid appears in the local set - and, the uid matching, the creation side
does not recreate it: a same-uid entry is not left untouched. -/
theorem c2_counterexample :
    (mkShift { year := 2025, month := 7, day := 1 } "T").uid =
      exLocalAL.uid ∧
    remoteUidMatches exRemoteT exLocalAL.uid = true ∧
    exRemoteT ∈ outdatedShifts [exRemoteT] [exLocalAL] ∧
    newShifts [exRemoteT] [exLocalAL] = [] := by
  refine ⟨rfl, by decide, by decide, by decide⟩

/-- C1 amended: the uid of a Shift is the canonical string of the
version-5 UUID, under the fixed application namespace, of the string
employer:employeeId:start, where start is the DTSTART formatted as
%Y%m%d%H%M%S%Z - whole-second precision with the time-zone abbreviation
appended: AEST or AEDT for a timed shift label, nothing for an all-day
label whose naive midnight start carries no zone; the construction is a
pure function of date and label, so rebuilding from the same pair
always yields the same uid. -/
theorem c1_uid_deterministic_uuid5 (d : PyDate) (rawLabel : String) :
    (∀ h mi : Nat,
      alistLookup shiftStartTimes (pyUpper (pyStrip rawLabel)) = some (h, mi) →
      (mkShift d rawLabel).uid = uuidToString (uuid5Bytes appNamespaceBytes
        (strToBytes (employerName ++ ":" ++ employeeId ++ ":" ++
          pad4 d.year ++ pad2 d.month ++ pad2 d.day ++ pad2 h ++ pad2 mi ++
          "00" ++ strftimeZ (shiftStartDT d (pyUpper (pyStrip rawLabel))))))) ∧
    (alistLookup shiftStartTimes (pyUpper (pyStrip rawLabel)) = none →
      (mkShift d rawLabel).uid = uuidToString (uuid5Bytes appNamespaceBytes
        (strToBytes (employerName ++ ":" ++ employeeId ++ ":" ++
          pad4 d.year ++ pad2 d.month ++ pad2 d.day ++ "000000")))) ∧
    (∀ d2 : PyDate, ∀ l2 : String, d2 = d → l2 = rawLabel →
      (mkShift d2 l2).uid = (mkShift d rawLabel).uid) := by
  refine ⟨?_, ?_, ?_⟩
  · intro h mi hl
    have huid : (mkShift d rawLabel).uid =
        generateUid (shiftStartDT d (pyUpper (pyStrip rawLabel))) := rfl
    have hstart : shiftStartDT d (pyUpper (pyStrip rawLabel)) =
        { year := d.year, month := d.month, day := d.day, hour := h,
          minute := mi, second := 0, aware := true } := by
      unfold shiftStartDT
      rw [hl]
    rw [huid]
    unfold generateUid
    rw [hstart]
    simp only [strftimeYmdHMSZ, stringAppend_assoc]
    rfl
  · intro hl
    have huid : (mkShift d rawLabel).uid =
        generateUid (shiftStartDT d (pyUpper (pyStrip rawLabel))) := rfl
    have hstart : shiftStartDT d (pyUpper (pyStrip rawLabel)) =
        { year := d.year, month := d.month, day := d.day, hour := 0,
          minute := 0, second := 0, aware := false } := by
      unfold shiftStartDT
      rw [hl]
    rw [huid]
    unfold generateUid
    rw [hstart]
    simp only [strftimeYmdHMSZ, stringAppend_assoc]
    rfl
  · intro d2 l2 hd hlb
    rw [hd, hlb]

/-- C1 witness at the day shift on 2025-07-01: the start-time table
resolves D to 08:00 and the uid is the version-5 UUID of the formatted
start string, and rebuilding the same shift reproduces the uid. -/
theorem c1_witness :
    alistLookup shiftStartTimes (pyUpper (pyStrip "D")) = some (8, 0) ∧
    (mkShift { year := 2025, month := 7, day := 1 } "D").uid =
      uuidToString (uuid5Bytes appNamespaceBytes (strToBytes
        (employerName ++ ":" ++ employeeId ++ ":" ++ pad4 2025 ++ pad2 7 ++
         pad2 1 ++ pad2 8 ++ pad2 0 ++ "00" ++
         strftimeZ (shiftStartDT { year := 2025, month := 7, day := 1 }
           (pyUpper (pyStrip "D")))))) ∧
    (mkShift { year := 2025, month := 7, day := 1 } "D").uid =
      (mkShift { year := 2025, month := 7, day := 1 } "D").uid :=
  ⟨rfl,
   (c1_uid_deterministic_uuid5 { year := 2025, month := 7, day := 1 } "D").1
     8 0 rfl,
   (c1_uid_deterministic_uuid5 { year := 2025, month := 7, day := 1 } "D").2.2
     { year := 2025, month := 7, day := 1 } "D" rfl rfl⟩

set_option maxRecDepth 100000 in
/-- C1 counterexample: for the timed day shift on 2025-07-01 the
formatted start string carries the zone abbreviation AEST appended by
%Z, so the uid differs from the version-5 UUID of the claimed string
with no time-zone component. -/
theorem c1_counterexample :
    strftimeYmdHMSZ (mkShift { year := 2025, month := 7, day := 1 } "D").startDT
      = "20250701080000AEST" ∧
    (mkShift { year := 2025, month := 7, day := 1 } "D").uid =
      uuidToString (uuid5Bytes appNamespaceBytes
        (strToBytes "SWSLHD:60316064:20250701080000AEST")) ∧
    (mkShift { year := 2025, month := 7, day := 1 } "D").uid ≠
      uuidToString (uuid5Bytes appNamespaceBytes
        (strToBytes "SWSLHD:60316064:20250701080000")) := by
  refine ⟨rfl, rfl, ?_⟩
  decide
